import Mathlib

/-!
Formal model of the creep entity from creeps.py: the ALIVE / EXPLODING / DEAD
state machine, movement integration, wall bounce with X-axis priority,
randomized heading changes, pixel hit testing, and health depletion.

External collaborators enter as injected data, as the specification
prescribes: pygame surfaces become bounding boxes with an alpha channel,
pygame.transform.rotate becomes an injected angle-to-image capability, and
the two random draws consumed by an update (the turn threshold from
randint(400, 500) and the turn choice from randint(-1, 1)) are explicit
arguments of the update function.
-/

namespace Creeps

open scoped Classical

/-- Modelled from the spec: the repository imports vec2d, which is not under
src/.  The spec describes Vector2 as a pair of floats with add, scale,
normalize, angle-from-positive-x-axis in degrees (screen coordinates), and
rotate-by-degrees. -/
@[ext]
structure vec2d where
  x : ℝ
  y : ℝ

/-- Modelled from the spec: vector magnitude. -/
noncomputable def vec2d.length (v : vec2d) : ℝ :=
  Real.sqrt (v.x ^ 2 + v.y ^ 2)

/-- Modelled from the spec: normalization.  Division by a zero length is the
degenerate case the spec calls out; real division by zero yields zero here,
a defined zero-safe sentinel. -/
noncomputable def vec2d.normalized (v : vec2d) : vec2d :=
  ⟨v.x / v.length, v.y / v.length⟩

/-- Two-argument arctangent, the angle of the point (x, y) from the positive
x axis, in radians. -/
noncomputable def atan2 (y x : ℝ) : ℝ :=
  if 0 < x then Real.arctan (y / x)
  else if x < 0 then
    (if 0 ≤ y then Real.arctan (y / x) + Real.pi else Real.arctan (y / x) - Real.pi)
  else if 0 < y then Real.pi / 2
  else if y < 0 then -(Real.pi / 2)
  else 0

/-- Modelled from the spec: angle of the vector from the positive x axis in
degrees, in screen coordinates (y grows downward). -/
noncomputable def vec2d.angle (v : vec2d) : ℝ :=
  atan2 v.y v.x * 180 / Real.pi

/-- Modelled from the spec: rotation by the given number of degrees,
preserving magnitude. -/
noncomputable def vec2d.rotate (v : vec2d) (deg : ℝ) : vec2d :=
  ⟨v.x * Real.cos (deg * Real.pi / 180) - v.y * Real.sin (deg * Real.pi / 180),
   v.x * Real.sin (deg * Real.pi / 180) + v.y * Real.cos (deg * Real.pi / 180)⟩

/-- An image (pygame surface) as the core needs it: a pixel rectangle of
width w and height h together with the alpha channel of each pixel.  This is
the injected sprite capability the spec describes. -/
structure Image where
  w : ℤ
  h : ℤ
  alpha : ℤ → ℤ → ℕ

instance : Inhabited Image := ⟨⟨0, 0, fun _ _ => 0⟩⟩

/-- pygame Surface.get_at restricted to the alpha channel: reading a pixel
outside the surface raises IndexError, modelled as none. -/
def Image.get_at (img : Image) (p : ℤ × ℤ) : Option ℕ :=
  if 0 ≤ p.1 ∧ p.1 < img.w ∧ 0 ≤ p.2 ∧ p.2 < img.h then
    some (img.alpha p.1 p.2)
  else none

/-- pygame Rect: x, y is the top left corner. -/
@[ext]
structure Rect where
  x : ℤ
  y : ℤ
  w : ℤ
  h : ℤ

def Rect.left (r : Rect) : ℤ := r.x

def Rect.top (r : Rect) : ℤ := r.y

def Rect.right (r : Rect) : ℤ := r.x + r.w

def Rect.bottom (r : Rect) : ℤ := r.y + r.h

/-- pygame Rect.inflate: grow around the center; the corner moves by half the
growth, computed in C integer arithmetic (division truncating toward zero).
All widths used in this development are even, where every division
convention agrees. -/
def Rect.inflate (r : Rect) (dx dy : ℤ) : Rect :=
  ⟨r.x - Int.tdiv dx 2, r.y - Int.tdiv dy 2, r.w + dx, r.h + dy⟩

/-- Python int() on a float: truncation toward zero. -/
noncomputable def pyInt (x : ℝ) : ℤ :=
  if 0 ≤ x then ⌊x⌋ else ⌈x⌉

/-- Modelled from the spec: the repository imports SimpleAnimation, which is
not under src/.  The spec describes it as a finite frame sequence with a
per-frame duration, a start delay and an elapsed-time clock; update advances
the clock by dt and is a no-op once inactive; active is true exactly until
the clock reaches start delay plus frame duration times the frame count, a
one-way transition. -/
@[ext]
structure SimpleAnimation where
  originx : ℝ
  originy : ℝ
  frames : List Image
  frame_duration : ℝ
  start_delay : ℝ
  elapsed : ℝ

/-- Modelled from the spec: total active time of the animation. -/
noncomputable def SimpleAnimation.total (a : SimpleAnimation) : ℝ :=
  a.start_delay + a.frame_duration * a.frames.length

/-- Modelled from the spec: the animation is active until its clock reaches
the total time. -/
noncomputable def SimpleAnimation.active (a : SimpleAnimation) : Prop :=
  a.elapsed < a.total

/-- Modelled from the spec: update advances the clock by dt and is a no-op
once inactive. -/
noncomputable def SimpleAnimation.update (a : SimpleAnimation) (dt : ℝ) : SimpleAnimation :=
  if a.active then { a with elapsed := a.elapsed + dt } else a

/-- The three lifecycle states of a creep (creeps.py line 186). -/
inductive CState where
  | ALIVE
  | EXPLODING
  | DEAD
deriving DecidableEq

/-- The creep state: position, heading, speed, health, lifecycle state, the
turn timer (_counter, an instance accumulator), the current rotated image
with its captured size, the owned explosion animation once exploding, and
the killed flag recording the kill() self-removal signal.  The injected
capabilities (base image, the rotation capability standing for
pygame.transform.rotate of the base image, the explosion frames and the
field rectangle) ride along as immutable fields. -/
@[ext]
structure Creep where
  speed : ℝ
  field : Rect
  base_image : Image
  transform_rotate : ℝ → Image
  explosion_images : List Image
  pos : vec2d
  direction : vec2d
  state : CState
  health : ℤ
  counter : ℝ
  image : Image
  image_w : ℤ
  image_h : ℤ
  explode_animation : Option SimpleAnimation
  killed : Bool

/-- Creep.__init__ (creeps.py lines 17-73): the direction is normalized, the
state starts ALIVE and health starts at 15.  The Python code leaves
image_w and image_h unset until the first update; we capture the base image
size so the record is total (the first update overwrites both). -/
noncomputable def Creep.init (base : Image) (tr : ℝ → Image) (exps : List Image)
    (f : Rect) (init_position init_direction : vec2d) (speed : ℝ) : Creep :=
  { speed := speed
    field := f
    base_image := base
    transform_rotate := tr
    explosion_images := exps
    pos := init_position
    direction := init_direction.normalized
    state := CState.ALIVE
    health := 15
    counter := 0
    image := base
    image_w := base.w
    image_h := base.h
    explode_animation := none
    killed := false }

/-- Creep.is_alive (creeps.py lines 75-76). -/
def Creep.is_alive (c : Creep) : Prop :=
  c.state = CState.ALIVE ∨ c.state = CState.EXPLODING

/-- Creep._change_direction (creeps.py lines 190-197): accumulate the turn
timer; once it exceeds the drawn threshold (randint(400, 500)), rotate the
heading by 45 times the drawn turn (randint(-1, 1)) and reset the timer. -/
noncomputable def Creep.change_direction (c : Creep) (time_passed : ℝ)
    (threshold turn : ℤ) : Creep :=
  if c.counter + time_passed > (threshold : ℝ) then
    { c with direction := c.direction.rotate ((45 : ℝ) * (turn : ℝ)), counter := 0 }
  else
    { c with counter := c.counter + time_passed }

/-- Creep._explode (creeps.py lines 222-231): enter EXPLODING and construct
the owned explosion animation, with its origin at the current position minus
half the first explosion frame extent, frame duration 100 ms and start delay
300 ms.  Integer halving is Python 2 floor division. -/
noncomputable def Creep.explode (c : Creep) : Creep :=
  { c with
    state := CState.EXPLODING
    explode_animation := some
      { originx := c.pos.x - ((Int.fdiv (c.explosion_images.headI).w 2 : ℤ) : ℝ)
        originy := c.pos.y - ((Int.fdiv (c.explosion_images.headI).h 2 : ℤ) : ℝ)
        frames := c.explosion_images
        frame_duration := 100
        start_delay := 300
        elapsed := 0 } }

/-- Creep._decrease_health (creeps.py lines 213-220): when not paused, floor
the health at 0 after subtracting n, and explode exactly when the new health
is 0. -/
noncomputable def Creep.decrease_health (c : Creep) (n : ℤ) (is_paused : Bool) : Creep :=
  if is_paused then c
  else
    if max 0 (c.health - n) = 0 then
      { c with health := max 0 (c.health - n) }.explode
    else
      { c with health := max 0 (c.health - n) }

/-- Creep._point_is_inside (creeps.py lines 199-211): translate the point to
image coordinates relative to the int-truncated top-left corner of the
current image, read the alpha there, and treat an out-of-surface read
(IndexError) as a miss. -/
noncomputable def Creep.point_is_inside (c : Creep) (point : ℤ × ℤ) : Bool :=
  match c.image.get_at
      (point.1 - pyInt (c.pos.x - ((Int.fdiv c.image_w 2 : ℤ) : ℝ)),
       point.2 - pyInt (c.pos.y - ((Int.fdiv c.image_h 2 : ℤ) : ℝ))) with
  | some a => decide (0 < a)
  | none => false

/-- Creep.mouse_click_event (creeps.py lines 171-175). -/
noncomputable def Creep.mouse_click_event (c : Creep) (point : ℤ × ℤ)
    (is_paused : Bool) : Creep :=
  if c.point_is_inside point then c.decrease_health 3 is_paused else c

/-- Creep.update (creeps.py lines 78-138).  ALIVE: maybe turn, re-rotate the
image, displace by direction times speed times dt, then bounce off the field
inset by the rotated image size, correcting at most one axis with X first.
EXPLODING: delegate dt to the animation while it is active, otherwise become
DEAD and signal removal (kill).  DEAD: no-op.  The EXPLODING branch reads
the owned animation, which _explode always sets before that state is
entered; an absent animation leaves the creep unchanged. -/
noncomputable def Creep.update (c : Creep) (time_passed : ℝ)
    (threshold turn : ℤ) : Creep :=
  if c.state = CState.ALIVE then
    let c1 := c.change_direction time_passed threshold turn
    let img := c1.transform_rotate (-(c1.direction.angle))
    let px := c1.pos.x + c1.direction.x * c1.speed * time_passed
    let py := c1.pos.y + c1.direction.y * c1.speed * time_passed
    let b := c1.field.inflate (-img.w) (-img.h)
    let c2 := { c1 with image := img, image_w := img.w, image_h := img.h,
                        pos := ⟨px, py⟩ }
    if px < (b.left : ℝ) then
      { c2 with pos := ⟨(b.left : ℝ), py⟩,
                direction := ⟨-c2.direction.x, c2.direction.y⟩ }
    else if px > (b.right : ℝ) then
      { c2 with pos := ⟨(b.right : ℝ), py⟩,
                direction := ⟨-c2.direction.x, c2.direction.y⟩ }
    else if py < (b.top : ℝ) then
      { c2 with pos := ⟨px, (b.top : ℝ)⟩,
                direction := ⟨c2.direction.x, -c2.direction.y⟩ }
    else if py > (b.bottom : ℝ) then
      { c2 with pos := ⟨px, (b.bottom : ℝ)⟩,
                direction := ⟨c2.direction.x, -c2.direction.y⟩ }
    else c2
  else if c.state = CState.EXPLODING then
    match c.explode_animation with
    | some a =>
        if a.active then { c with explode_animation := some (a.update time_passed) }
        else { c with state := CState.DEAD, killed := true }
    | none => c
  else c

/-- Iterated unpaused clicks at a fixed point. -/
noncomputable def Creep.clickIter (c : Creep) (p : ℤ × ℤ) : ℕ → Creep
  | 0 => c
  | n + 1 => (Creep.clickIter c p n).mouse_click_event p false

/-! Small evaluation lemmas. -/

@[simp]
theorem pyInt_intCast (n : ℤ) : pyInt ((n : ℝ)) = n := by
  unfold pyInt
  split_ifs <;> simp

theorem pyInt_eq_of_eq_intCast {x : ℝ} {n : ℤ} (h : x = (n : ℝ)) : pyInt x = n := by
  rw [h, pyInt_intCast]

@[simp]
theorem change_direction_pos (c : Creep) (dt : ℝ) (t k : ℤ) :
    (c.change_direction dt t k).pos = c.pos := by
  unfold Creep.change_direction; split_ifs <;> rfl

@[simp]
theorem change_direction_speed (c : Creep) (dt : ℝ) (t k : ℤ) :
    (c.change_direction dt t k).speed = c.speed := by
  unfold Creep.change_direction; split_ifs <;> rfl

@[simp]
theorem change_direction_field (c : Creep) (dt : ℝ) (t k : ℤ) :
    (c.change_direction dt t k).field = c.field := by
  unfold Creep.change_direction; split_ifs <;> rfl

@[simp]
theorem change_direction_tr (c : Creep) (dt : ℝ) (t k : ℤ) :
    (c.change_direction dt t k).transform_rotate = c.transform_rotate := by
  unfold Creep.change_direction; split_ifs <;> rfl

@[simp]
theorem change_direction_state (c : Creep) (dt : ℝ) (t k : ℤ) :
    (c.change_direction dt t k).state = c.state := by
  unfold Creep.change_direction; split_ifs <;> rfl

@[simp]
theorem change_direction_health (c : Creep) (dt : ℝ) (t k : ℤ) :
    (c.change_direction dt t k).health = c.health := by
  unfold Creep.change_direction; split_ifs <;> rfl

@[simp]
theorem change_direction_anim (c : Creep) (dt : ℝ) (t k : ℤ) :
    (c.change_direction dt t k).explode_animation = c.explode_animation := by
  unfold Creep.change_direction; split_ifs <;> rfl

@[simp]
theorem change_direction_killed (c : Creep) (dt : ℝ) (t k : ℤ) :
    (c.change_direction dt t k).killed = c.killed := by
  unfold Creep.change_direction; split_ifs <;> rfl

@[simp]
theorem explode_pos (c : Creep) : c.explode.pos = c.pos := rfl

@[simp]
theorem explode_health (c : Creep) : c.explode.health = c.health := rfl

@[simp]
theorem explode_image (c : Creep) : c.explode.image = c.image := rfl

@[simp]
theorem explode_image_w (c : Creep) : c.explode.image_w = c.image_w := rfl

@[simp]
theorem explode_image_h (c : Creep) : c.explode.image_h = c.image_h := rfl

@[simp]
theorem explode_state (c : Creep) : c.explode.state = CState.EXPLODING := rfl

@[simp]
theorem explode_killed (c : Creep) : c.explode.killed = c.killed := rfl

/-- A creep click changes neither the position nor the current image data:
only health, state and the owned animation can move. -/
theorem click_preserves (c : Creep) (p : ℤ × ℤ) (b : Bool) :
    (c.mouse_click_event p b).pos = c.pos ∧
    (c.mouse_click_event p b).image = c.image ∧
    (c.mouse_click_event p b).image_w = c.image_w ∧
    (c.mouse_click_event p b).image_h = c.image_h := by
  unfold Creep.mouse_click_event Creep.decrease_health
  split_ifs <;> simp

/-- The hit test only reads the position, the current image and its captured
size. -/
theorem point_is_inside_congr (c c2 : Creep) (q : ℤ × ℤ)
    (h1 : c2.pos = c.pos) (h2 : c2.image = c.image)
    (h3 : c2.image_w = c.image_w) (h4 : c2.image_h = c.image_h) :
    c2.point_is_inside q = c.point_is_inside q := by
  unfold Creep.point_is_inside
  rw [h1, h2, h3, h4]

theorem point_is_inside_click (c : Creep) (p : ℤ × ℤ) (b : Bool) (q : ℤ × ℤ) :
    (c.mouse_click_event p b).point_is_inside q = c.point_is_inside q := by
  obtain ⟨h1, h2, h3, h4⟩ := click_preserves c p b
  exact point_is_inside_congr c _ q h1 h2 h3 h4

/-- An unpaused hit is exactly the floored health decrement, exploding when
the new health is zero. -/
theorem hit_eval (c : Creep) (p : ℤ × ℤ) (hin : c.point_is_inside p = true) :
    c.mouse_click_event p false =
      if max 0 (c.health - 3) = 0 then
        { c with health := max 0 (c.health - 3) }.explode
      else
        { c with health := max 0 (c.health - 3) } := by
  unfold Creep.mouse_click_event Creep.decrease_health
  rw [hin]
  simp

/-! Concrete instances used by witnesses and counterexamples. -/

@[simp]
theorem tdiv_32 : Int.tdiv 32 2 = 16 := by decide

@[simp]
theorem tdiv_40 : Int.tdiv 40 2 = 20 := by decide

@[simp]
theorem tdiv_80 : Int.tdiv 80 2 = 40 := by decide

@[simp]
theorem tdiv_neg_32 : Int.tdiv (-32) 2 = -16 := by decide

@[simp]
theorem tdiv_neg_40 : Int.tdiv (-40) 2 = -20 := by decide

@[simp]
theorem tdiv_neg_80 : Int.tdiv (-80) 2 = -40 := by decide

@[simp]
theorem fdiv_32 : Int.fdiv 32 2 = 16 := by decide

@[simp]
theorem fdiv_16 : Int.fdiv 16 2 = 8 := by decide

/-- A fully opaque 32 by 32 sprite. -/
def img32 : Image := ⟨32, 32, fun _ _ => 1⟩

/-- A fully opaque 16 by 16 explosion frame. -/
def imgE : Image := ⟨16, 16, fun _ _ => 1⟩

/-- A fully opaque 40 by 40 sprite. -/
def img40 : Image := ⟨40, 40, fun _ _ => 1⟩

/-- A fully opaque 80 by 80 sprite. -/
def img80 : Image := ⟨80, 80, fun _ _ => 1⟩

def field300 : Rect := ⟨0, 0, 300, 300⟩

def field200 : Rect := ⟨0, 0, 200, 200⟩

def field160 : Rect := ⟨0, 0, 160, 160⟩

/-- Rotation capability of a sprite whose bounding box is the same at every
angle. -/
def trConst32 : ℝ → Image := fun _ => img32

def trConst40 : ℝ → Image := fun _ => img40

def trConst80 : ℝ → Image := fun _ => img80

@[simp]
theorem normalized_unitx : (vec2d.mk 1 0).normalized = ⟨1, 0⟩ := by
  unfold vec2d.normalized vec2d.length
  norm_num

/-- The click point used by the concrete traces. -/
def pt : ℤ × ℤ := (100, 100)

/-- Any creep sitting at (100, 100) showing the 32 by 32 opaque sprite is hit
by a click at (100, 100). -/
theorem inside_100 (c : Creep) (hpos : c.pos = ⟨100, 100⟩) (him : c.image = img32)
    (hw : c.image_w = 32) (hh : c.image_h = 32) :
    c.point_is_inside pt = true := by
  unfold Creep.point_is_inside
  rw [hpos, him, hw, hh]
  have h84 : pyInt ((vec2d.mk (100 : ℝ) 100).x - ((Int.fdiv 32 2 : ℤ) : ℝ)) = 84 := by
    apply pyInt_eq_of_eq_intCast
    rw [fdiv_32]
    push_cast
    norm_num
  rw [h84]
  norm_num [Image.get_at, img32, pt]

/-- The C1 trace: a creep born at (100, 100) with heading (1, 0) and speed 0,
in a field large enough that it never bounces. -/
noncomputable def ct0 : Creep :=
  Creep.init img32 trConst32 [imgE, imgE] field300 ⟨100, 100⟩ ⟨1, 0⟩ 0

noncomputable def ct1 : Creep :=
  { speed := 0, field := field300, base_image := img32, transform_rotate := trConst32,
    explosion_images := [imgE, imgE], pos := ⟨100, 100⟩, direction := ⟨1, 0⟩,
    state := CState.ALIVE, health := 15, counter := 1, image := img32,
    image_w := 32, image_h := 32, explode_animation := none, killed := false }

noncomputable def ct2 : Creep := { ct1 with health := 12 }

noncomputable def ct3 : Creep := { ct1 with health := 9 }

noncomputable def ct4 : Creep := { ct1 with health := 6 }

noncomputable def ct5 : Creep := { ct1 with health := 3 }

/-- The explosion animation constructed when the trace creep dies. -/
noncomputable def aExp : SimpleAnimation := ⟨92, 92, [imgE, imgE], 100, 300, 0⟩

noncomputable def ct6 : Creep :=
  { ct1 with health := 0, state := CState.EXPLODING, explode_animation := some aExp }

noncomputable def ct7 : Creep :=
  { ct6 with explode_animation := some { aExp with elapsed := 600 } }

noncomputable def ct8 : Creep := { ct7 with state := CState.DEAD, killed := true }

theorem ct1_eq : ct0.update 1 500 0 = ct1 := by
  norm_num [ct0, ct1, Creep.init, Creep.update, Creep.change_direction,
    trConst32, img32, imgE, field300, Rect.inflate, Rect.left, Rect.right,
    Rect.top, Rect.bottom]

theorem ct2_eq : ct1.mouse_click_event pt false = ct2 := by
  rw [hit_eval ct1 pt (inside_100 ct1 rfl rfl rfl rfl)]
  norm_num [ct1, ct2]

theorem ct3_eq : ct2.mouse_click_event pt false = ct3 := by
  rw [hit_eval ct2 pt (inside_100 ct2 rfl rfl rfl rfl)]
  norm_num [ct1, ct2, ct3]

theorem ct4_eq : ct3.mouse_click_event pt false = ct4 := by
  rw [hit_eval ct3 pt (inside_100 ct3 rfl rfl rfl rfl)]
  norm_num [ct1, ct3, ct4]

theorem ct5_eq : ct4.mouse_click_event pt false = ct5 := by
  rw [hit_eval ct4 pt (inside_100 ct4 rfl rfl rfl rfl)]
  norm_num [ct1, ct4, ct5]

theorem ct6_eq : ct5.mouse_click_event pt false = ct6 := by
  rw [hit_eval ct5 pt (inside_100 ct5 rfl rfl rfl rfl)]
  norm_num [ct1, ct5, ct6, aExp, Creep.explode, imgE, List.headI]

theorem ct7_eq : ct6.update 600 500 0 = ct7 := by
  have hst : ct6.state = CState.EXPLODING := rfl
  have hani : ct6.explode_animation = some aExp := rfl
  have hact : aExp.active := by
    norm_num [SimpleAnimation.active, SimpleAnimation.total, aExp]
  unfold Creep.update
  rw [hst, if_neg (by decide), if_pos rfl, hani]
  dsimp only
  rw [if_pos hact]
  norm_num [ct6, ct7, ct1, aExp, SimpleAnimation.update, SimpleAnimation.active,
    SimpleAnimation.total]

theorem ct8_eq : ct7.update 1 500 0 = ct8 := by
  have hst : ct7.state = CState.EXPLODING := rfl
  have hani : ct7.explode_animation = some (SimpleAnimation.mk 92 92 [imgE, imgE] 100 300 600) :=
    rfl
  have hnact : ¬ (SimpleAnimation.mk 92 92 [imgE, imgE] 100 300 600).active := by
    norm_num [SimpleAnimation.active, SimpleAnimation.total]
  unfold Creep.update
  rw [hst, if_neg (by decide), if_pos rfl, hani]
  dsimp only
  rw [if_neg hnact]
  rfl

theorem ct9_state : (ct8.mouse_click_event pt false).state = CState.EXPLODING := by
  rw [hit_eval ct8 pt (inside_100 ct8 rfl rfl rfl rfl)]
  have hh : ct8.health = 0 := rfl
  rw [hh, if_pos (by decide)]
  simp

/-- The creep of the C1 trace after its whole life: born, updated once, shot
five times, explosion played to the end, and observed DEAD. -/
noncomputable def ctDead : Creep :=
  (((((((ct0.update 1 500 0).mouse_click_event pt false).mouse_click_event pt
      false).mouse_click_event pt false).mouse_click_event pt
      false).mouse_click_event pt false).update 600 500 0).update 1 500 0

theorem ctDead_eq : ctDead = ct8 := by
  unfold ctDead
  rw [ct1_eq, ct2_eq, ct3_eq, ct4_eq, ct5_eq, ct6_eq, ct7_eq, ct8_eq]

/-! State-machine helper lemmas. -/

theorem update_state_alive (c : Creep) (dt : ℝ) (t k : ℤ)
    (h : c.state = CState.ALIVE) : (c.update dt t k).state = CState.ALIVE := by
  unfold Creep.update
  rw [if_pos h]
  dsimp only
  split_ifs <;> simp [h]

theorem update_health_alive (c : Creep) (dt : ℝ) (t k : ℤ)
    (h : c.state = CState.ALIVE) : (c.update dt t k).health = c.health := by
  unfold Creep.update
  rw [if_pos h]
  dsimp only
  split_ifs <;> simp

theorem update_anim_alive (c : Creep) (dt : ℝ) (t k : ℤ)
    (h : c.state = CState.ALIVE) :
    (c.update dt t k).explode_animation = c.explode_animation := by
  unfold Creep.update
  rw [if_pos h]
  dsimp only
  split_ifs <;> simp

theorem update_state_exploding (c : Creep) (dt : ℝ) (t k : ℤ)
    (h : c.state = CState.EXPLODING) :
    (c.update dt t k).state = CState.EXPLODING ∨ (c.update dt t k).state = CState.DEAD := by
  unfold Creep.update
  rw [if_neg (by rw [h]; decide), if_pos h]
  cases ha : c.explode_animation with
  | none => exact Or.inl h
  | some a =>
      dsimp only
      split_ifs
      · exact Or.inl h
      · exact Or.inr rfl

theorem update_dead_noop (c : Creep) (h : c.state = CState.DEAD) (dt : ℝ) (t k : ℤ) :
    c.update dt t k = c := by
  unfold Creep.update
  rw [if_neg (by rw [h]; decide), if_neg (by rw [h]; decide)]

/-- Exhaustive shape of a click: no effect, a plain health decrement, or a
decrement to zero followed by the explosion. -/
theorem click_cases (c : Creep) (p : ℤ × ℤ) (b : Bool) :
    ((c.point_is_inside p = false ∨ b = true) ∧ c.mouse_click_event p b = c)
    ∨ (c.point_is_inside p = true ∧ b = false ∧ max 0 (c.health - 3) ≠ 0 ∧
        c.mouse_click_event p b = { c with health := max 0 (c.health - 3) })
    ∨ (c.point_is_inside p = true ∧ b = false ∧ max 0 (c.health - 3) = 0 ∧
        c.mouse_click_event p b = { c with health := max 0 (c.health - 3) }.explode) := by
  unfold Creep.mouse_click_event Creep.decrease_health
  by_cases hin : c.point_is_inside p = true
  · rw [if_pos hin]
    cases b
    · by_cases hz : max 0 (c.health - 3) = 0
      · exact Or.inr (Or.inr ⟨hin, rfl, hz, by rw [if_neg (by simp), if_pos hz]⟩)
      · exact Or.inr (Or.inl ⟨hin, rfl, hz, by rw [if_neg (by simp), if_neg hz]⟩)
    · exact Or.inl ⟨Or.inr rfl, by rw [if_pos rfl]⟩
  · exact Or.inl ⟨Or.inl (by simpa using hin), by rw [if_neg hin]⟩

/-! Claim theorems. -/

/-- C1 (amended).  Update calls never move the lifecycle state backward and
never skip EXPLODING: an ALIVE creep stays ALIVE, an EXPLODING creep stays
EXPLODING or becomes DEAD, a DEAD creep stays DEAD.  A mouse_click_event
changes the state only to EXPLODING, and it does so exactly when an unpaused
hit floors the health to 0; because the click handler never checks the
state, that same path also restarts the explosion of an already EXPLODING
creep with a fresh animation, and moves a DEAD creep backward to EXPLODING. -/
theorem C1_theorem (c : Creep) (dt : ℝ) (t k : ℤ) (p : ℤ × ℤ) (b : Bool) :
    ((c.state = CState.ALIVE → (c.update dt t k).state = CState.ALIVE)
      ∧ (c.state = CState.EXPLODING →
          (c.update dt t k).state = CState.EXPLODING ∨ (c.update dt t k).state = CState.DEAD)
      ∧ (c.state = CState.DEAD → (c.update dt t k).state = CState.DEAD))
    ∧ ((c.mouse_click_event p b).state ≠ c.state →
        (c.mouse_click_event p b).state = CState.EXPLODING
          ∧ c.point_is_inside p = true ∧ b = false ∧ max 0 (c.health - 3) = 0)
    ∧ (c.point_is_inside p = true → b = false → max 0 (c.health - 3) = 0 →
        (c.mouse_click_event p b).state = CState.EXPLODING
          ∧ (c.mouse_click_event p b).explode_animation = some
              { originx := c.pos.x - ((Int.fdiv (c.explosion_images.headI).w 2 : ℤ) : ℝ)
                originy := c.pos.y - ((Int.fdiv (c.explosion_images.headI).h 2 : ℤ) : ℝ)
                frames := c.explosion_images
                frame_duration := 100
                start_delay := 300
                elapsed := 0 }) := by
  refine ⟨⟨update_state_alive c dt t k, update_state_exploding c dt t k,
      fun h => by rw [update_dead_noop c h]; exact h⟩, ?_, ?_⟩
  · intro hne
    rcases click_cases c p b with ⟨_, he⟩ | ⟨_, _, _, he⟩ | ⟨hin, hb, hz, he⟩
    · exact absurd (by rw [he]) hne
    · exact absurd (by rw [he]) hne
    · exact ⟨by rw [he]; simp, hin, hb, hz⟩
  · intro hin hb hz
    rcases click_cases c p b with ⟨h1, _⟩ | ⟨_, _, hnz, _⟩ | ⟨_, _, _, he⟩
    · rcases h1 with h1 | h1
      · rw [hin] at h1; cases h1
      · rw [hb] at h1; cases h1
    · exact absurd hz hnz
    · exact ⟨by rw [he]; simp, by rw [he]; simp [Creep.explode]⟩

/-- C1 counterexample at a concrete reachable creep: born ALIVE at
(100, 100), updated, shot five times into EXPLODING, its explosion played
out into DEAD — and one further unpaused click at its position moves the
state backward from DEAD to EXPLODING. -/
theorem C1_counterexample :
    ctDead.state = CState.DEAD
      ∧ (ctDead.mouse_click_event pt false).state = CState.EXPLODING := by
  constructor
  · rw [ctDead_eq]; rfl
  · rw [ctDead_eq]; exact ct9_state

/-- C1 witness: the amended theorem applied to the concrete DEAD creep of
the trace, showing the backward DEAD to EXPLODING step it predicts. -/
theorem C1_witness :
    ct8.state = CState.DEAD
      ∧ (ct8.mouse_click_event pt false).state = CState.EXPLODING := by
  refine ⟨rfl, ?_⟩
  exact ((C1_theorem ct8 1 500 0 pt false).2.2
    (inside_100 ct8 rfl rfl rfl rfl) rfl (by decide)).1

/-- C5: a click with isPaused true leaves the creep completely unchanged,
hit or miss: health is untouched, no explosion starts and nothing is
queued. -/
theorem C5_theorem (c : Creep) (p : ℤ × ℤ) : c.mouse_click_event p true = c := by
  unfold Creep.mouse_click_event Creep.decrease_health
  by_cases hin : c.point_is_inside p = true
  · rw [if_pos hin, if_pos rfl]
  · rw [if_neg hin]

/-- C9: while EXPLODING, update delegates dt to the owned animation while the
animation is active; once it is inactive the creep becomes DEAD and signals
removal (kill); and DEAD makes update a permanent no-op. -/
theorem C9_theorem (c : Creep) (dt : ℝ) (t k : ℤ) (a : SimpleAnimation)
    (hst : c.state = CState.EXPLODING) (ha : c.explode_animation = some a) :
    (a.active → c.update dt t k = { c with explode_animation := some (a.update dt) })
    ∧ (¬ a.active →
        (c.update dt t k).state = CState.DEAD ∧ (c.update dt t k).killed = true)
    ∧ (∀ c2 : Creep, c2.state = CState.DEAD → ∀ dt2 : ℝ, ∀ t2 k2 : ℤ,
        c2.update dt2 t2 k2 = c2) := by
  refine ⟨?_, ?_, fun c2 h dt2 t2 k2 => update_dead_noop c2 h dt2 t2 k2⟩
  · intro hact
    unfold Creep.update
    rw [if_neg (by rw [hst]; decide), if_pos hst, ha]
    dsimp only
    rw [if_pos hact]
  · intro hnact
    unfold Creep.update
    rw [if_neg (by rw [hst]; decide), if_pos hst, ha]
    dsimp only
    rw [if_neg hnact]
    exact ⟨rfl, rfl⟩

/-- C9 witness: the exploding trace creep delegates a 600 ms update to its
animation. -/
theorem C9_witness :
    ct6.update 600 500 0 = { ct6 with explode_animation := some (aExp.update 600) } := by
  exact (C9_theorem ct6 600 500 0 aExp rfl rfl).1
    (by norm_num [SimpleAnimation.active, SimpleAnimation.total, aExp])

/-- C10: an ALIVE update never changes health or the lifecycle state, and
the only way a click changes the state is an unpaused hit. -/
theorem C10_theorem (c : Creep) (dt : ℝ) (t k : ℤ) (hst : c.state = CState.ALIVE) :
    (c.update dt t k).health = c.health
    ∧ (c.update dt t k).state = CState.ALIVE
    ∧ ∀ p b, (c.mouse_click_event p b).state ≠ c.state →
        (c.point_is_inside p = true ∧ b = false) := by
  refine ⟨update_health_alive c dt t k hst, update_state_alive c dt t k hst, ?_⟩
  intro p b hne
  rcases click_cases c p b with ⟨_, he⟩ | ⟨_, _, _, he⟩ | ⟨hin, hb, _, _⟩
  · exact absurd (by rw [he]) hne
  · exact absurd (by rw [he]) hne
  · exact ⟨hin, hb⟩

/-- C10 witness: the trace creep keeps health 15 and stays ALIVE across an
update. -/
theorem C10_witness :
    (ct1.update 1 500 0).health = 15 ∧ (ct1.update 1 500 0).state = CState.ALIVE := by
  obtain ⟨h1, h2, _⟩ := C10_theorem ct1 1 500 0 rfl
  exact ⟨h1.trans rfl, h2⟩

/-- Shape of an ALIVE update after the displacement: the four bounce branches
of creeps.py lines 117-128, spelled out against the post-turn direction d,
the post-displacement position (qx, qy) and the inset bounds b. -/
theorem update_alive_shape (c : Creep) (dt : ℝ) (t k : ℤ) (d : vec2d) (img : Image)
    (qx qy : ℝ) (b : Rect)
    (hst : c.state = CState.ALIVE)
    (hd : d = (c.change_direction dt t k).direction)
    (himg : img = c.transform_rotate (-(vec2d.angle d)))
    (hqx : qx = c.pos.x + d.x * c.speed * dt)
    (hqy : qy = c.pos.y + d.y * c.speed * dt)
    (hb : b = c.field.inflate (-img.w) (-img.h)) :
    (qx < (b.left : ℝ) →
      (c.update dt t k).pos = ⟨(b.left : ℝ), qy⟩
        ∧ (c.update dt t k).direction = ⟨-d.x, d.y⟩)
    ∧ (¬ qx < (b.left : ℝ) → qx > (b.right : ℝ) →
      (c.update dt t k).pos = ⟨(b.right : ℝ), qy⟩
        ∧ (c.update dt t k).direction = ⟨-d.x, d.y⟩)
    ∧ (¬ qx < (b.left : ℝ) → ¬ qx > (b.right : ℝ) → qy < (b.top : ℝ) →
      (c.update dt t k).pos = ⟨qx, (b.top : ℝ)⟩
        ∧ (c.update dt t k).direction = ⟨d.x, -d.y⟩)
    ∧ (¬ qx < (b.left : ℝ) → ¬ qx > (b.right : ℝ) → ¬ qy < (b.top : ℝ) →
        qy > (b.bottom : ℝ) →
      (c.update dt t k).pos = ⟨qx, (b.bottom : ℝ)⟩
        ∧ (c.update dt t k).direction = ⟨d.x, -d.y⟩)
    ∧ (¬ qx < (b.left : ℝ) → ¬ qx > (b.right : ℝ) → ¬ qy < (b.top : ℝ) →
        ¬ qy > (b.bottom : ℝ) →
      (c.update dt t k).pos = ⟨qx, qy⟩ ∧ (c.update dt t k).direction = d) := by
  subst hd himg hqx hqy hb
  unfold Creep.update
  rw [if_pos hst]
  dsimp only
  simp only [change_direction_pos, change_direction_speed, change_direction_field,
    change_direction_tr]
  split_ifs with h1 h2 h3 h4
  · exact ⟨fun _ => ⟨rfl, rfl⟩, fun hn _ => absurd h1 hn, fun hn _ _ => absurd h1 hn,
      fun hn _ _ _ => absurd h1 hn, fun hn _ _ _ => absurd h1 hn⟩
  · exact ⟨fun hq => absurd hq h1, fun _ _ => ⟨rfl, rfl⟩, fun _ hn _ => absurd h2 hn,
      fun _ hn _ _ => absurd h2 hn, fun _ hn _ _ => absurd h2 hn⟩
  · exact ⟨fun hq => absurd hq h1, fun _ hq => absurd hq h2, fun _ _ _ => ⟨rfl, rfl⟩,
      fun _ _ hn _ => absurd h3 hn, fun _ _ hn _ => absurd h3 hn⟩
  · exact ⟨fun hq => absurd hq h1, fun _ hq => absurd hq h2, fun _ _ hq => absurd hq h3,
      fun _ _ _ _ => ⟨rfl, rfl⟩, fun _ _ _ hn => absurd h4 hn⟩
  · exact ⟨fun hq => absurd hq h1, fun _ hq => absurd hq h2, fun _ _ hq => absurd hq h3,
      fun _ _ _ hq => absurd hq h4, fun _ _ _ _ => ⟨rfl, rfl⟩⟩

/-- C3: in an ALIVE update, wall bounce fixes at most one axis with X first:
an X-edge violation clamps pos.x to that edge, negates direction.x, and
leaves pos.y at its post-displacement value even if it is out of bounds; the
Y axis is examined only when the X axis is within the inset bounds, and a
violation there clamps pos.y and negates direction.y. -/
theorem C3_theorem (c : Creep) (dt : ℝ) (t k : ℤ) (d : vec2d) (img : Image)
    (qx qy : ℝ) (b : Rect)
    (hst : c.state = CState.ALIVE)
    (hd : d = (c.change_direction dt t k).direction)
    (himg : img = c.transform_rotate (-(vec2d.angle d)))
    (hqx : qx = c.pos.x + d.x * c.speed * dt)
    (hqy : qy = c.pos.y + d.y * c.speed * dt)
    (hb : b = c.field.inflate (-img.w) (-img.h)) :
    (qx < (b.left : ℝ) →
      (c.update dt t k).pos = ⟨(b.left : ℝ), qy⟩
        ∧ (c.update dt t k).direction = ⟨-d.x, d.y⟩)
    ∧ (¬ qx < (b.left : ℝ) → qx > (b.right : ℝ) →
      (c.update dt t k).pos = ⟨(b.right : ℝ), qy⟩
        ∧ (c.update dt t k).direction = ⟨-d.x, d.y⟩)
    ∧ (¬ qx < (b.left : ℝ) → ¬ qx > (b.right : ℝ) → qy < (b.top : ℝ) →
      (c.update dt t k).pos = ⟨qx, (b.top : ℝ)⟩
        ∧ (c.update dt t k).direction = ⟨d.x, -d.y⟩)
    ∧ (¬ qx < (b.left : ℝ) → ¬ qx > (b.right : ℝ) → ¬ qy < (b.top : ℝ) →
        qy > (b.bottom : ℝ) →
      (c.update dt t k).pos = ⟨qx, (b.bottom : ℝ)⟩
        ∧ (c.update dt t k).direction = ⟨d.x, -d.y⟩)
    ∧ (¬ qx < (b.left : ℝ) → ¬ qx > (b.right : ℝ) → ¬ qy < (b.top : ℝ) →
        ¬ qy > (b.bottom : ℝ) →
      (c.update dt t k).pos = ⟨qx, qy⟩ ∧ (c.update dt t k).direction = d) :=
  update_alive_shape c dt t k d img qx qy b hst hd himg hqx hqy hb

/-- C2 (amended): after every ALIVE update, pos.x lies within the inset
bounds (whenever those bounds are nonempty); pos.y also lies within them on
every frame in which no X-axis correction fires, but a frame that corrects
the X axis leaves pos.y at its post-displacement value, possibly out of
bounds. -/
theorem C2_theorem (c : Creep) (dt : ℝ) (t k : ℤ) (d : vec2d) (img : Image)
    (qx qy : ℝ) (b : Rect)
    (hst : c.state = CState.ALIVE)
    (hd : d = (c.change_direction dt t k).direction)
    (himg : img = c.transform_rotate (-(vec2d.angle d)))
    (hqx : qx = c.pos.x + d.x * c.speed * dt)
    (hqy : qy = c.pos.y + d.y * c.speed * dt)
    (hb : b = c.field.inflate (-img.w) (-img.h))
    (hx : b.left ≤ b.right) (hy : b.top ≤ b.bottom) :
    ((b.left : ℝ) ≤ (c.update dt t k).pos.x ∧ (c.update dt t k).pos.x ≤ (b.right : ℝ))
    ∧ (¬ qx < (b.left : ℝ) → ¬ qx > (b.right : ℝ) →
        (b.top : ℝ) ≤ (c.update dt t k).pos.y
          ∧ (c.update dt t k).pos.y ≤ (b.bottom : ℝ)) := by
  obtain ⟨s1, s2, s3, s4, s5⟩ :=
    update_alive_shape c dt t k d img qx qy b hst hd himg hqx hqy hb
  by_cases h1 : qx < (b.left : ℝ)
  · obtain ⟨hp, _⟩ := s1 h1
    refine ⟨⟨?_, ?_⟩, fun hn _ => absurd h1 hn⟩
    · rw [hp]
    · rw [hp]; show (b.left : ℝ) ≤ (b.right : ℝ); exact_mod_cast hx
  · by_cases h2 : qx > (b.right : ℝ)
    · obtain ⟨hp, _⟩ := s2 h1 h2
      refine ⟨⟨?_, ?_⟩, fun _ hn => absurd h2 hn⟩
      · rw [hp]; show (b.left : ℝ) ≤ (b.right : ℝ); exact_mod_cast hx
      · rw [hp]
    · by_cases h3 : qy < (b.top : ℝ)
      · obtain ⟨hp, _⟩ := s3 h1 h2 h3
        refine ⟨⟨?_, ?_⟩, fun _ _ => ⟨?_, ?_⟩⟩
        · rw [hp]; exact not_lt.mp h1
        · rw [hp]; exact not_lt.mp h2
        · rw [hp]
        · rw [hp]; show (b.top : ℝ) ≤ (b.bottom : ℝ); exact_mod_cast hy
      · by_cases h4 : qy > (b.bottom : ℝ)
        · obtain ⟨hp, _⟩ := s4 h1 h2 h3 h4
          refine ⟨⟨?_, ?_⟩, fun _ _ => ⟨?_, ?_⟩⟩
          · rw [hp]; exact not_lt.mp h1
          · rw [hp]; exact not_lt.mp h2
          · rw [hp]; show (b.top : ℝ) ≤ (b.bottom : ℝ); exact_mod_cast hy
          · rw [hp]
        · obtain ⟨hp, _⟩ := s5 h1 h2 h3 h4
          refine ⟨⟨?_, ?_⟩, fun _ _ => ⟨?_, ?_⟩⟩
          · rw [hp]; exact not_lt.mp h1
          · rw [hp]; exact not_lt.mp h2
          · rw [hp]; exact not_lt.mp h3
          · rw [hp]; exact not_lt.mp h4

/-- A creep whose next update violates both the right and the bottom inset
edges: born ALIVE inside the field at (179, 199) with heading (1, 0) and
speed 0.05, in a 200 by 200 field with a 40 by 40 sprite, so the inset
bounds are 20..180 on both axes. -/
noncomputable def cBoth : Creep :=
  Creep.init img40 trConst40 [imgE, imgE] field200 ⟨179, 199⟩ ⟨1, 0⟩ 0.05

noncomputable def cBothAfter : Creep :=
  { speed := 0.05, field := field200, base_image := img40, transform_rotate := trConst40,
    explosion_images := [imgE, imgE], pos := ⟨180, 199⟩, direction := ⟨-1, 0⟩,
    state := CState.ALIVE, health := 15, counter := 500, image := img40,
    image_w := 40, image_h := 40, explode_animation := none, killed := false }

theorem cBoth_eq : cBoth.update 500 500 0 = cBothAfter := by
  norm_num [cBoth, cBothAfter, Creep.init, Creep.update, Creep.change_direction,
    trConst40, img40, field200, Rect.inflate, Rect.left, Rect.right, Rect.top,
    Rect.bottom]

theorem cBoth_hd : vec2d.mk 1 0 = (cBoth.change_direction 500 500 0).direction := by
  norm_num [cBoth, Creep.init, Creep.change_direction]

theorem cBoth_himg : img40 = cBoth.transform_rotate (-(vec2d.angle ⟨1, 0⟩)) := rfl

theorem cBoth_hqx : (204 : ℝ) = cBoth.pos.x + (vec2d.mk 1 0).x * cBoth.speed * 500 := by
  norm_num [cBoth, Creep.init]

theorem cBoth_hqy : (199 : ℝ) = cBoth.pos.y + (vec2d.mk 1 0).y * cBoth.speed * 500 := by
  norm_num [cBoth, Creep.init]

theorem cBoth_hb : Rect.mk 20 20 160 160 = cBoth.field.inflate (-img40.w) (-img40.h) := by
  norm_num [cBoth, Creep.init, field200, img40, Rect.inflate]

/-- C2 counterexample: for the reachable ALIVE creep cBoth, a single
update(dt = 500) leaves pos.y = 199 strictly below the inset bottom edge
180 computed from the current rotated sprite, refuting that the position
lies within the inset bounds after every update. -/
theorem C2_counterexample :
    cBoth.state = CState.ALIVE ∧ (0 : ℝ) < 500
      ∧ (cBoth.update 500 500 0).pos.y >
          ((((cBoth.update 500 500 0).field.inflate (-(cBoth.update 500 500 0).image_w)
              (-(cBoth.update 500 500 0).image_h)).bottom : ℤ) : ℝ) := by
  refine ⟨rfl, by norm_num, ?_⟩
  rw [cBoth_eq]
  norm_num [cBothAfter, field200, Rect.inflate, Rect.bottom]

/-- C2 witness: the amended theorem applied to the concrete creep cBoth,
whose X coordinate ends clamped inside 20..180. -/
theorem C2_witness :
    (20 : ℝ) ≤ (cBoth.update 500 500 0).pos.x
      ∧ (cBoth.update 500 500 0).pos.x ≤ (180 : ℝ) := by
  obtain ⟨⟨ha, hb2⟩, _⟩ :=
    C2_theorem cBoth 500 500 0 ⟨1, 0⟩ img40 204 199 (Rect.mk 20 20 160 160)
      rfl cBoth_hd cBoth_himg cBoth_hqx cBoth_hqy cBoth_hb (by decide) (by decide)
  constructor
  · exact_mod_cast ha
  · exact_mod_cast hb2

/-- C3 witness: the axis-priority theorem applied to cBoth, which violates
both edges at once; only X is corrected, pos.y stays at the out-of-bounds
199, and direction.x flips. -/
theorem C3_witness :
    (cBoth.update 500 500 0).pos = ⟨180, 199⟩
      ∧ (cBoth.update 500 500 0).direction = ⟨-1, 0⟩ := by
  obtain ⟨_, s2, _, _, _⟩ :=
    C3_theorem cBoth 500 500 0 ⟨1, 0⟩ img40 204 199 (Rect.mk 20 20 160 160)
      rfl cBoth_hd cBoth_himg cBoth_hqx cBoth_hqy cBoth_hb
  obtain ⟨hp, hdir⟩ := s2 (by norm_num [Rect.left]) (by norm_num [Rect.right])
  refine ⟨?_, ?_⟩
  · rw [hp]
    norm_num [Rect.right]
  · rw [hdir]

/-- C7: the heading-change step of an ALIVE update accumulates the turn
timer by dt and compares it against the freshly drawn threshold t, an
arbitrary value of the inclusive randint range 400..500; when the timer
exceeds t, the heading is rotated by 45 times the drawn turn k from
randint(-1, 1) — one of -45, 0 or +45 degrees — and the timer resets to 0;
otherwise only the accumulated timer is kept, and the update itself carries
exactly the timer that this step produced. -/
theorem C7_theorem (c : Creep) (dt : ℝ) (t k : ℤ)
    (ht1 : 400 ≤ t) (ht2 : t ≤ 500) (hk1 : -1 ≤ k) (hk2 : k ≤ 1) :
    (c.counter + dt > (t : ℝ) →
      (c.change_direction dt t k).counter = 0
        ∧ (c.change_direction dt t k).direction = c.direction.rotate ((45 : ℝ) * (k : ℝ))
        ∧ ((c.change_direction dt t k).direction = c.direction.rotate (-45)
            ∨ (c.change_direction dt t k).direction = c.direction.rotate 0
            ∨ (c.change_direction dt t k).direction = c.direction.rotate 45))
    ∧ (¬ c.counter + dt > (t : ℝ) →
        c.change_direction dt t k = { c with counter := c.counter + dt })
    ∧ (c.state = CState.ALIVE →
        (c.update dt t k).counter = (c.change_direction dt t k).counter) := by
  refine ⟨?_, ?_, ?_⟩
  · intro hgt
    unfold Creep.change_direction
    rw [if_pos hgt]
    refine ⟨rfl, rfl, ?_⟩
    interval_cases k
    · left; norm_num
    · right; left; norm_num
    · right; right; norm_num
  · intro hle
    unfold Creep.change_direction
    rw [if_neg hle]
  · intro hst
    unfold Creep.update
    rw [if_pos hst]
    dsimp only
    split_ifs <;> rfl

/-- C7 witness: the trace creep with timer 1 receiving dt = 500 against the
drawn threshold 450 and turn draw 1 resets its timer and turns by +45
degrees. -/
theorem C7_witness :
    (ct1.change_direction 500 450 1).counter = 0
      ∧ (ct1.change_direction 500 450 1).direction = ct1.direction.rotate 45 := by
  obtain ⟨h1, h2, _⟩ :=
    (C7_theorem ct1 500 450 1 (by decide) (by decide) (by decide) (by decide)).1
      (by norm_num [ct1])
  refine ⟨h1, ?_⟩
  rw [h2]
  norm_num

/-- The C8 scenario creep: ALIVE at (100, 100), heading (1, 0), speed 0.05,
in a 160 by 160 field with an 80 by 80 sprite, so the inset bounds run
40..120 on each axis and the right edge sits at x = 120. -/
noncomputable def cC8 : Creep :=
  Creep.init img80 trConst80 [imgE, imgE] field160 ⟨100, 100⟩ ⟨1, 0⟩ 0.05

noncomputable def cC8After : Creep :=
  { speed := 0.05, field := field160, base_image := img80, transform_rotate := trConst80,
    explosion_images := [imgE, imgE], pos := ⟨120, 100⟩, direction := ⟨-1, 0⟩,
    state := CState.ALIVE, health := 15, counter := 500, image := img80,
    image_w := 80, image_h := 80, explode_animation := none, killed := false }

theorem cC8_eq (k : ℤ) : cC8.update 500 500 k = cC8After := by
  norm_num [cC8, cC8After, Creep.init, Creep.update, Creep.change_direction,
    trConst80, img80, field160, Rect.inflate, Rect.left, Rect.right, Rect.top,
    Rect.bottom]

/-- C8: with the threshold draw 500 (a legal randint(400, 500) value, under
which the turn check 500 > 500 fails and the heading is untouched, as the
deterministic scenario presumes) and any turn draw k, one update(dt = 500)
of the scenario creep displaces it by exactly 25 px along x and 0 along y,
clamps pos.x to the inset right edge 120, and flips the heading to (-1, 0). -/
theorem C8_theorem (k : ℤ) :
    (cC8.change_direction 500 500 k).direction.x * cC8.speed * 500 = 25
    ∧ (cC8.change_direction 500 500 k).direction.y * cC8.speed * 500 = 0
    ∧ (cC8.update 500 500 k).pos = ⟨120, 100⟩
    ∧ (cC8.update 500 500 k).direction = ⟨-1, 0⟩ := by
  have hcd : cC8.change_direction 500 500 k = { cC8 with counter := 500 } := by
    unfold Creep.change_direction
    rw [if_neg (by norm_num [cC8, Creep.init])]
    norm_num [cC8, Creep.init]
  refine ⟨?_, ?_, ?_, ?_⟩
  · rw [hcd]; norm_num [cC8, Creep.init]
  · rw [hcd]; norm_num [cC8, Creep.init]
  · rw [cC8_eq k]; rfl
  · rw [cC8_eq k]; rfl

theorem clickIter_zero (c : Creep) (p : ℤ × ℤ) : c.clickIter p 0 = c := rfl

theorem clickIter_succ (c : Creep) (p : ℤ × ℤ) (n : ℕ) :
    c.clickIter p (n + 1) = (c.clickIter p n).mouse_click_event p false := rfl

/-- C4: an unpaused hit decrements health by 3 floored at 0; on the call on
which health reaches exactly 0 the ALIVE creep moves to EXPLODING — never to
DEAD — constructing its explosion animation at the current position with
frame duration 100 ms and start delay 300 ms; otherwise it stays ALIVE; and
from the initial health 15 successive hits at the same point yield
12, 9, 6, 3, 0, with the EXPLODING transition exactly on the fifth hit. -/
theorem C4_theorem (c : Creep) (p : ℤ × ℤ)
    (hst : c.state = CState.ALIVE) (hin : c.point_is_inside p = true) :
    (c.mouse_click_event p false).health = max 0 (c.health - 3)
    ∧ ((c.mouse_click_event p false).health = 0 →
        (c.mouse_click_event p false).state = CState.EXPLODING
        ∧ (c.mouse_click_event p false).state ≠ CState.DEAD
        ∧ (c.mouse_click_event p false).explode_animation = some
            { originx := c.pos.x - ((Int.fdiv (c.explosion_images.headI).w 2 : ℤ) : ℝ)
              originy := c.pos.y - ((Int.fdiv (c.explosion_images.headI).h 2 : ℤ) : ℝ)
              frames := c.explosion_images
              frame_duration := 100
              start_delay := 300
              elapsed := 0 })
    ∧ ((c.mouse_click_event p false).health ≠ 0 →
        (c.mouse_click_event p false).state = CState.ALIVE)
    ∧ (c.health = 15 →
        (c.clickIter p 1).health = 12 ∧ (c.clickIter p 1).state = CState.ALIVE
        ∧ (c.clickIter p 2).health = 9 ∧ (c.clickIter p 2).state = CState.ALIVE
        ∧ (c.clickIter p 3).health = 6 ∧ (c.clickIter p 3).state = CState.ALIVE
        ∧ (c.clickIter p 4).health = 3 ∧ (c.clickIter p 4).state = CState.ALIVE
        ∧ (c.clickIter p 5).health = 0
        ∧ (c.clickIter p 5).state = CState.EXPLODING) := by
  have hev := hit_eval c p hin
  refine ⟨?_, ?_, ?_, ?_⟩
  · rw [hev]
    split_ifs <;> simp
  · intro hm0
    rw [hev]
    rw [hev] at hm0
    by_cases hz : max 0 (c.health - 3) = 0
    · rw [if_pos hz]
      refine ⟨by simp, by simp, ?_⟩
      simp [Creep.explode]
    · rw [if_neg hz] at hm0
      exact absurd hm0 hz
  · intro hmne
    rw [hev] at hmne ⊢
    by_cases hz : max 0 (c.health - 3) = 0
    · rw [if_pos hz] at hmne
      simp [hz] at hmne
    · rw [if_neg hz]
      exact hst
  · intro h15
    have s1 : c.clickIter p 1 = { c with health := 12 } := by
      rw [clickIter_succ, clickIter_zero, hev, h15]
      rw [if_neg (by norm_num)]
      norm_num
    have hin1 : ({ c with health := 12 } : Creep).point_is_inside p = true := by
      rw [point_is_inside_congr c { c with health := 12 } p rfl rfl rfl rfl]
      exact hin
    have s2 : c.clickIter p 2 = { c with health := 9 } := by
      rw [clickIter_succ, s1, hit_eval _ p hin1]
      rw [if_neg (by norm_num)]
      norm_num
    have hin2 : ({ c with health := 9 } : Creep).point_is_inside p = true := by
      rw [point_is_inside_congr c { c with health := 9 } p rfl rfl rfl rfl]
      exact hin
    have s3 : c.clickIter p 3 = { c with health := 6 } := by
      rw [clickIter_succ, s2, hit_eval _ p hin2]
      rw [if_neg (by norm_num)]
      norm_num
    have hin3 : ({ c with health := 6 } : Creep).point_is_inside p = true := by
      rw [point_is_inside_congr c { c with health := 6 } p rfl rfl rfl rfl]
      exact hin
    have s4 : c.clickIter p 4 = { c with health := 3 } := by
      rw [clickIter_succ, s3, hit_eval _ p hin3]
      rw [if_neg (by norm_num)]
      norm_num
    have hin4 : ({ c with health := 3 } : Creep).point_is_inside p = true := by
      rw [point_is_inside_congr c { c with health := 3 } p rfl rfl rfl rfl]
      exact hin
    have s5 : c.clickIter p 5 =
        ({ c with health := 3 } : Creep).mouse_click_event p false := by
      rw [clickIter_succ, s4]
    rw [s1, s2, s3, s4, s5, hit_eval _ p hin4]
    rw [if_pos (by norm_num)]
    refine ⟨rfl, hst, rfl, hst, rfl, hst, rfl, hst, by simp, by simp⟩

/-- C4 witness: the trace creep at full health 15 reaches 12 on the first
hit and health 0 with state EXPLODING on the fifth. -/
theorem C4_witness :
    (ct1.mouse_click_event pt false).health = 12
      ∧ (ct1.clickIter pt 5).health = 0
      ∧ (ct1.clickIter pt 5).state = CState.EXPLODING := by
  obtain ⟨h1, _, _, hseq⟩ := C4_theorem ct1 pt rfl (inside_100 ct1 rfl rfl rfl rfl)
  obtain ⟨_, _, _, _, _, _, _, _, h50, h5s⟩ := hseq rfl
  refine ⟨?_, h50, h5s⟩
  rw [h1]
  norm_num [ct1]

/-- C6: a click point whose image coordinate — point minus the truncated
top-left corner position minus half extent — falls outside the pixel bounds
of the current sprite image is a miss rather than an error, and such a click
leaves the creep, in particular its health, unchanged. -/
theorem C6_theorem (c : Creep) (p : ℤ × ℤ) (ix iy : ℤ)
    (hix : ix = p.1 - pyInt (c.pos.x - ((Int.fdiv c.image_w 2 : ℤ) : ℝ)))
    (hiy : iy = p.2 - pyInt (c.pos.y - ((Int.fdiv c.image_h 2 : ℤ) : ℝ)))
    (hout : ¬ (0 ≤ ix ∧ ix < c.image.w ∧ 0 ≤ iy ∧ iy < c.image.h)) :
    c.point_is_inside p = false ∧ ∀ b, c.mouse_click_event p b = c := by
  subst hix hiy
  have hmiss : c.point_is_inside p = false := by
    unfold Creep.point_is_inside Image.get_at
    dsimp only
    rw [if_neg hout]
  refine ⟨hmiss, fun b => ?_⟩
  unfold Creep.mouse_click_event
  simp [hmiss]

/-- C6 witness: clicking (200, 200) against the trace creep at (100, 100)
with its 32 by 32 sprite gives image coordinate (116, 116), outside the
pixel bounds: a miss, and the creep is unchanged. -/
theorem C6_witness :
    ct1.point_is_inside (200, 200) = false
      ∧ ct1.mouse_click_event (200, 200) false = ct1 := by
  have h84x : pyInt (ct1.pos.x - ((Int.fdiv ct1.image_w 2 : ℤ) : ℝ)) = 84 := by
    apply pyInt_eq_of_eq_intCast
    norm_num [ct1]
  have h84y : pyInt (ct1.pos.y - ((Int.fdiv ct1.image_h 2 : ℤ) : ℝ)) = 84 := by
    apply pyInt_eq_of_eq_intCast
    norm_num [ct1]
  obtain ⟨h1, h2⟩ := C6_theorem ct1 (200, 200) 116 116
    (by rw [h84x]; norm_num) (by rw [h84y]; norm_num) (by decide)
  exact ⟨h1, h2 false⟩

end Creeps
